import Mathlib

/-!
# Verification of the AWS interconnector-flow repository

Shallow embedding of the two Lambda functions:

* `src/Examples/entsoe_and_3rd_partyAPI_key.py` — the ingestion job: fetches
  cross-border flow series per country, computes net flow, sanitizes values,
  reshapes into `(datetime, date)`-keyed records and inserts them into the
  DynamoDB table, skipping keys that already exist.
* `src/Examples/second_Lambda_func.py` — the query service: generates the
  15-minute keys of the last 24 hours, batch-fetches them, sorts records by
  `datetime`, converts timestamps to Unix epoch seconds and returns a JSON
  HTTP response.

Python `datetime` values are modelled as natural numbers counting seconds
since 0001-01-01 00:00:00 (proleptic Gregorian, i.e. `(toordinal - 1) * 86400
+ seconds_in_day`), which is the representation CPython's own conversion
functions (`_ymd2ord` / `_ord2ymd`, `calendar.timegm`) use internally.
Remote API calls and the DynamoDB client are external collaborators; their
outcomes enter the handlers as explicit parameters, and the store is a list
of records threaded through the write path.
-/

/-- JSON values, the shape `json.dumps` serializes.  Bodies of Lambda
responses are modelled as `Json` values rather than strings. -/
inductive Json where
  | str (s : String)
  | num (n : ℤ)
  | arr (xs : List Json)
  | obj (fields : List (String × Json))

/-- A pandas/numpy cell value: NaN, the two infinities, or a finite number
(modelled as a rational, since every float is one). -/
inductive PyValue where
  | nan
  | posInf
  | negInf
  | finite (q : ℚ)
deriving DecidableEq

/-- The exceptions relevant to the handlers: `requests.exceptions.HTTPError`
carrying an HTTP status, and every other exception class, carrying its
message. -/
inductive PyExc where
  | httpError (status : ℕ) (msg : String)
  | generic (msg : String)
deriving DecidableEq

/-- One DynamoDB item: the composite key `(datetime, date)` plus one integer
flow value per country. -/
structure Record where
  datetime : ℕ
  date : ℕ
  flows : List (String × ℤ)
deriving DecidableEq

/-- A record after `convert_to_epoch`: the `datetime` attribute has been
replaced by a Unix epoch-seconds integer (possibly negative for pre-1970
timestamps). -/
structure OutRecord where
  datetime : ℤ
  date : ℕ
  flows : List (String × ℤ)
deriving DecidableEq

/-- A Lambda response: `{statusCode, body, headers}`. -/
structure Response where
  statusCode : ℕ
  body : Json
  headers : List (String × String)

/-! ## Calendar arithmetic

Transcription of the CPython `datetime` module helpers that `strftime`,
`strptime`, `timetuple` and `calendar.timegm` are built on
(`_is_leap`, `_DAYS_IN_MONTH`, `_DAYS_BEFORE_MONTH`, `_days_before_year`,
`_ymd2ord`, `_ord2ymd`). -/

/-- CPython `_is_leap`. -/
def isLeap (y : ℕ) : Bool :=
  decide (y % 4 = 0 ∧ (¬ y % 100 = 0 ∨ y % 400 = 0))

/-- CPython `_DAYS_IN_MONTH` (non-leap month lengths), 1-indexed. -/
def daysInMonthTable : ℕ → ℕ
  | 1 => 31 | 2 => 28 | 3 => 31 | 4 => 30 | 5 => 31 | 6 => 30
  | 7 => 31 | 8 => 31 | 9 => 30 | 10 => 31 | 11 => 30 | 12 => 31
  | _ => 0

/-- CPython `_DAYS_BEFORE_MONTH`, 1-indexed. -/
def daysBeforeMonth : ℕ → ℕ
  | 1 => 0 | 2 => 31 | 3 => 59 | 4 => 90 | 5 => 120 | 6 => 151
  | 7 => 181 | 8 => 212 | 9 => 243 | 10 => 273 | 11 => 304 | 12 => 334
  | _ => 0

/-- CPython `_days_in_month`. -/
def daysInMonth (y m : ℕ) : ℕ :=
  if m = 2 ∧ isLeap y then 29 else daysInMonthTable m

/-- CPython `_days_before_month`. -/
def daysBeforeMonthLeap (y m : ℕ) : ℕ :=
  daysBeforeMonth m + (if 2 < m ∧ isLeap y then 1 else 0)

/-- CPython `_days_before_year`. -/
def daysBeforeYear (y : ℕ) : ℕ :=
  (y - 1) * 365 + (y - 1) / 4 - (y - 1) / 100 + (y - 1) / 400

/-- CPython `_ymd2ord` (`date(y, m, d).toordinal()`). -/
def ymd2ord (y m d : ℕ) : ℕ :=
  daysBeforeYear y + daysBeforeMonthLeap y m + d

/-- The month/day recovery block at the end of CPython `_ord2ymd`:
given the leap flag and the 0-based day-of-year `n`, compute the month via
`(n + 50) >> 5` and correct it against `_DAYS_BEFORE_MONTH`. -/
def findMonthDay (leap : Bool) (n : ℕ) : ℕ × ℕ :=
  let month := (n + 50) / 32
  let preceding := daysBeforeMonth month + (if 2 < month ∧ leap then 1 else 0)
  if n < preceding then
    let month' := month - 1
    let preceding' :=
      preceding - (daysInMonthTable month' + (if month' = 2 ∧ leap then 1 else 0))
    (month', n - preceding' + 1)
  else
    (month, n - preceding + 1)

/-- CPython `_ord2ymd`: proleptic Gregorian ordinal back to `(year, month,
day)` by peeling 400-, 100-, 4- and 1-year cycles. -/
def ord2ymd (n : ℕ) : ℕ × ℕ × ℕ :=
  let n0 := n - 1
  let n400 := n0 / 146097
  let r1 := n0 % 146097
  let n100 := r1 / 36524
  let r2 := r1 % 36524
  let n4 := r2 / 1461
  let r3 := r2 % 1461
  let n1 := r3 / 365
  let r4 := r3 % 365
  let year := n400 * 400 + n100 * 100 + n4 * 4 + n1 + 1
  if n1 = 4 ∨ n100 = 4 then
    (year - 1, 12, 31)
  else
    let leap : Bool := decide (n1 = 3 ∧ (¬ n4 = 24 ∨ n100 = 3))
    let md := findMonthDay leap r4
    (year, md.1, md.2)

/-- The integer `int(t.strftime("%Y%m%d%H%M%S"))` for a timestamp with the
given components (4-digit year regime). -/
def mkDatetime (y mo d hh mi ss : ℕ) : ℕ :=
  ((((y * 100 + mo) * 100 + d) * 100 + hh) * 100 + mi) * 100 + ss

/-- The integer `int(t.strftime("%Y%m%d"))`. -/
def mkDate (y mo d : ℕ) : ℕ :=
  (y * 100 + mo) * 100 + d

/-- `int(t.strftime("%Y%m%d%H%M%S"))` for a datetime `t` given in seconds
since 0001-01-01 00:00:00. -/
def toKey (t : ℕ) : ℕ :=
  let ymd := ord2ymd (t / 86400 + 1)
  mkDatetime ymd.1 ymd.2.1 ymd.2.2 (t % 86400 / 3600) (t % 3600 / 60) (t % 60)

/-- `int(t.strftime("%Y%m%d"))` for a datetime `t` in seconds since
0001-01-01 00:00:00. -/
def toDate (t : ℕ) : ℕ :=
  let ymd := ord2ymd (t / 86400 + 1)
  mkDate ymd.1 ymd.2.1 ymd.2.2

/-! ## Round-trip of the calendar conversion

`_ord2ymd` is a left inverse of `_ymd2ord` on valid dates.  The proof
decomposes the 0-based year as `400a + 100b + 4c + e`, under which the
ordinal satisfies the exact identity
`ord - 1 = 146097a + 36524b + 1461c + 365e + doy`, and then checks that the
divmod chain of `_ord2ymd` recovers each digit, treating the last day of a
leap year sitting at a 4- or 400-year cycle boundary separately. -/

def fmdCheck : Bool :=
  [false, true].all (fun lp =>
    (List.range 13).all (fun m =>
      (List.range 32).all (fun d =>
        (!(decide (1 ≤ m ∧ 1 ≤ d ∧ d ≤ daysInMonthTable m + (if m = 2 ∧ lp = true then 1 else 0)))) ||
        (findMonthDay lp (daysBeforeMonth m + (if 2 < m ∧ lp = true then 1 else 0) + d - 1)
          == (m, d)))))

theorem fmdCheck_eq_true : fmdCheck = true := by decide

theorem findMonthDay_eq (lp : Bool) (m d : ℕ) (hm1 : 1 ≤ m) (hm2 : m ≤ 12) (hd1 : 1 ≤ d)
    (hd2 : d ≤ daysInMonthTable m + (if m = 2 ∧ lp = true then 1 else 0)) :
    findMonthDay lp (daysBeforeMonth m + (if 2 < m ∧ lp = true then 1 else 0) + d - 1) = (m, d) := by
  have h := fmdCheck_eq_true
  unfold fmdCheck at h
  rw [List.all_eq_true] at h
  have h1 := h lp (by cases lp <;> simp)
  rw [List.all_eq_true] at h1
  have hdim : daysInMonthTable m + (if m = 2 ∧ lp = true then 1 else 0) ≤ 31 := by
    cases lp <;> interval_cases m <;> simp [daysInMonthTable]
  have h2 := h1 m (by rw [List.mem_range]; omega)
  rw [List.all_eq_true] at h2
  have h3 := h2 d (by rw [List.mem_range]; omega)
  simp only [Bool.or_eq_true, Bool.not_eq_eq_eq_not, Bool.not_true, decide_eq_false_iff_not,
    beq_iff_eq] at h3
  rcases h3 with h3 | h3
  · exact absurd ⟨hm1, hd1, hd2⟩ h3
  · exact h3

theorem daysInMonth_eq (y m : ℕ) (hm1 : 1 ≤ m) (hm2 : m ≤ 12) :
    daysInMonth y m = daysInMonthTable m + (if m = 2 ∧ isLeap y = true then 1 else 0) := by
  unfold daysInMonth
  cases hl : isLeap y <;> interval_cases m <;> simp [daysInMonthTable]

theorem doy_facts (lp : Bool) (m d : ℕ) (hm1 : 1 ≤ m) (hm2 : m ≤ 12) (hd1 : 1 ≤ d)
    (hd2 : d ≤ daysInMonthTable m + (if m = 2 ∧ lp = true then 1 else 0)) :
    daysBeforeMonth m + (if 2 < m ∧ lp = true then 1 else 0) + d - 1
      ≤ 364 + (if lp = true then 1 else 0) ∧
    (daysBeforeMonth m + (if 2 < m ∧ lp = true then 1 else 0) + d - 1 = 365 →
      m = 12 ∧ d = 31 ∧ lp = true) := by
  cases lp <;> interval_cases m <;> simp [daysBeforeMonth, daysInMonthTable] at hd2 ⊢ <;> omega

theorem ord2ymd_chain_lt (a b c e D : ℕ) (hb : b ≤ 3) (hc : c ≤ 24) (he : e ≤ 3)
    (hD : D < 365) :
    ord2ymd (146097 * a + 36524 * b + 1461 * c + 365 * e + D + 1)
      = (400 * a + 100 * b + 4 * c + e + 1,
         findMonthDay (decide (e = 3 ∧ (¬ c = 24 ∨ b = 3))) D) := by
  have s0 : 146097 * a + 36524 * b + 1461 * c + 365 * e + D + 1 - 1
      = 146097 * a + (36524 * b + 1461 * c + 365 * e + D) := by omega
  have s1 : (146097 * a + (36524 * b + 1461 * c + 365 * e + D)) / 146097 = a := by omega
  have s1' : (146097 * a + (36524 * b + 1461 * c + 365 * e + D)) % 146097
      = 36524 * b + 1461 * c + 365 * e + D := by omega
  have s2 : (36524 * b + 1461 * c + 365 * e + D) / 36524 = b := by omega
  have s2' : (36524 * b + 1461 * c + 365 * e + D) % 36524 = 1461 * c + 365 * e + D := by omega
  have s3 : (1461 * c + 365 * e + D) / 1461 = c := by omega
  have s3' : (1461 * c + 365 * e + D) % 1461 = 365 * e + D := by omega
  have s4 : (365 * e + D) / 365 = e := by omega
  have s4' : (365 * e + D) % 365 = D := by omega
  simp only [ord2ymd, s0, s1, s1', s2, s2', s3, s3', s4, s4']
  rw [if_neg (by omega)]
  simp only [Prod.mk.injEq, and_true]
  omega

theorem ord2ymd_chain_last (a b c : ℕ) (hb : b ≤ 3) (hc : c ≤ 24) (hcb : c = 24 → b = 3) :
    ord2ymd (146097 * a + 36524 * b + 1461 * c + 365 * 3 + 365 + 1)
      = (400 * a + 100 * b + 4 * c + 4, 12, 31) := by
  by_cases hc24 : c = 24
  · have hb3 : b = 3 := hcb hc24
    subst hc24 hb3
    have s0 : 146097 * a + 36524 * 3 + 1461 * 24 + 365 * 3 + 365 + 1 - 1
        = 146097 * a + 146096 := by omega
    have s1 : (146097 * a + 146096) / 146097 = a := by omega
    have s1' : (146097 * a + 146096) % 146097 = 146096 := by omega
    simp only [ord2ymd, s0, s1, s1']
    norm_num
    omega
  · have s0 : 146097 * a + 36524 * b + 1461 * c + 365 * 3 + 365 + 1 - 1
        = 146097 * a + (36524 * b + (1461 * c + 1460)) := by omega
    have s1 : (146097 * a + (36524 * b + (1461 * c + 1460))) / 146097 = a := by omega
    have s1' : (146097 * a + (36524 * b + (1461 * c + 1460))) % 146097
        = 36524 * b + (1461 * c + 1460) := by omega
    have s2 : (36524 * b + (1461 * c + 1460)) / 36524 = b := by omega
    have s2' : (36524 * b + (1461 * c + 1460)) % 36524 = 1461 * c + 1460 := by omega
    have s3 : (1461 * c + 1460) / 1461 = c := by omega
    have s3' : (1461 * c + 1460) % 1461 = 1460 := by omega
    have s4 : (1460 : ℕ) / 365 = 4 := by norm_num
    simp only [ord2ymd, s0, s1, s1', s2, s2', s3, s3', s4]
    rw [if_pos (Or.inl trivial)]
    simp only [Prod.mk.injEq, and_true]
    omega

theorem isLeap_iff (y a b c e : ℕ) (hy : 1 ≤ y) (hb : b ≤ 3) (hc : c ≤ 24) (he : e ≤ 3)
    (hY : y - 1 = 400 * a + 100 * b + 4 * c + e) :
    (isLeap y = true) ↔ (e = 3 ∧ (¬ c = 24 ∨ b = 3)) := by
  unfold isLeap
  rw [decide_eq_true_eq]
  omega

theorem ymd2ord_decomp (y m d a b c e : ℕ) (hd1 : 1 ≤ d)
    (hb : b ≤ 3) (hc : c ≤ 24) (he : e ≤ 3)
    (hY : y - 1 = 400 * a + 100 * b + 4 * c + e) :
    ymd2ord y m d = 146097 * a + 36524 * b + 1461 * c + 365 * e +
      (daysBeforeMonth m + (if 2 < m ∧ isLeap y = true then 1 else 0) + d - 1) + 1 := by
  unfold ymd2ord daysBeforeYear daysBeforeMonthLeap
  omega

set_option maxHeartbeats 1000000 in
theorem ord2ymd_ymd2ord (y m d : ℕ) (hy : 1 ≤ y) (hm1 : 1 ≤ m) (hm2 : m ≤ 12)
    (hd1 : 1 ≤ d) (hd2 : d ≤ daysInMonth y m) :
    ord2ymd (ymd2ord y m d) = (y, m, d) := by
  obtain ⟨a, b, c, e, hb, hc, he, hY⟩ :
      ∃ a b c e, b ≤ 3 ∧ c ≤ 24 ∧ e ≤ 3 ∧ y - 1 = 400 * a + 100 * b + 4 * c + e :=
    ⟨(y - 1) / 400, (y - 1) % 400 / 100, (y - 1) % 100 / 4, (y - 1) % 4,
      by omega, by omega, by omega, by omega⟩
  have hyr : 400 * a + 100 * b + 4 * c + e + 1 = y := by omega
  have hleap := isLeap_iff y a b c e hy hb hc he hY
  rw [daysInMonth_eq y m hm1 hm2] at hd2
  obtain ⟨hDb, hD365⟩ := doy_facts (isLeap y) m d hm1 hm2 hd1 hd2
  have harg := ymd2ord_decomp y m d a b c e hd1 hb hc he hY
  set D : ℕ := daysBeforeMonth m + (if 2 < m ∧ isLeap y = true then 1 else 0) + d - 1 with hDdef
  have hD365' : D ≤ 365 := by clear * - hDb; by_cases hl : isLeap y = true <;> simp [hl] at hDb <;> omega
  rcases Nat.lt_or_ge D 365 with hDlt | hDge
  · have hflag : decide (e = 3 ∧ (¬ c = 24 ∨ b = 3)) = isLeap y := by
      rw [Bool.eq_iff_iff, decide_eq_true_eq]
      exact hleap.symm
    rw [harg, ord2ymd_chain_lt a b c e D hb hc he hDlt, hflag, hDdef,
      findMonthDay_eq (isLeap y) m d hm1 hm2 hd1 hd2]
    simp only [Prod.mk.injEq, and_true]
    exact hyr
  · have hD : D = 365 := le_antisymm hD365' hDge
    obtain ⟨hm12, hd31, hlp⟩ := hD365 hD
    have hel : e = 3 ∧ (¬ c = 24 ∨ b = 3) := hleap.mp hlp
    have harg' : ymd2ord y m d = 146097 * a + 36524 * b + 1461 * c + 365 * 3 + 365 + 1 := by
      rw [harg, hD, hel.1]
    rw [harg', ord2ymd_chain_last a b c hb hc (fun h => (hel.2.resolve_left (by simp [h])))]
    have hyr2 : 400 * a + 100 * b + 4 * c + 4 = y := by clear * - hyr hel; omega
    simp only [Prod.mk.injEq]
    refine ⟨hyr2, hm12.symm, hd31.symm⟩

/-! ## Epoch conversion (read path) -/

/-- CPython `calendar.timegm`: Unix epoch seconds (UTC) of the given
calendar components (negative before 1970).  Mirrors
`days = date(y, m, 1).toordinal() - _EPOCH_ORD + d - 1` followed by the
hour/minute/second accumulation, with `_EPOCH_ORD = 719163`. -/
def timegm (y mo d hh mi ss : ℕ) : ℤ :=
  ((((ymd2ord y mo 1 : ℤ) - 719163 + d - 1) * 24 + hh) * 60 + mi) * 60 + ss

/-- CPython `time.gmtime` restricted to the six calendar components:
epoch seconds back to `(year, month, day, hour, minute, second)` in UTC. -/
def gmtime (t : ℤ) : ℕ × ℕ × ℕ × ℕ × ℕ × ℕ :=
  let days := t / 86400
  let rem := (t % 86400).toNat
  let ymd := ord2ymd (days + 719163).toNat
  (ymd.1, ymd.2.1, ymd.2.2, rem / 3600, rem % 3600 / 60, rem % 60)

/-- `datetime.strptime(str(n), "%Y%m%d%H%M%S")` on the decimal form of a
14-digit integer: the six fields, or `none` (a `ValueError`) when a field is
out of range. -/
def parse14 (n : ℕ) : Option (ℕ × ℕ × ℕ × ℕ × ℕ × ℕ) :=
  let y := n / 10000000000
  let mo := n / 100000000 % 100
  let d := n / 1000000 % 100
  let hh := n / 10000 % 100
  let mi := n / 100 % 100
  let ss := n % 100
  if 1000 ≤ y ∧ y ≤ 9999 ∧ 1 ≤ mo ∧ mo ≤ 12 ∧ 1 ≤ d ∧ d ≤ daysInMonth y mo ∧
      hh ≤ 23 ∧ mi ≤ 59 ∧ ss ≤ 59 then
    some (y, mo, d, hh, mi, ss)
  else
    none

theorem gmtime_timegm (y mo d hh mi ss : ℕ) (hy : 1 ≤ y) (hm1 : 1 ≤ mo) (hm2 : mo ≤ 12)
    (hd1 : 1 ≤ d) (hd2 : d ≤ daysInMonth y mo) (hhh : hh ≤ 23) (hmi : mi ≤ 59) (hss : ss ≤ 59) :
    gmtime (timegm y mo d hh mi ss) = (y, mo, d, hh, mi, ss) := by
  have hshift : (ymd2ord y mo 1 : ℤ) - 719163 + d - 1 = (ymd2ord y mo d : ℤ) - 719163 := by
    unfold ymd2ord
    push_cast
    ring
  have ht : timegm y mo d hh mi ss
      = ((ymd2ord y mo d : ℤ) - 719163) * 86400 + (hh * 3600 + mi * 60 + ss) := by
    unfold timegm
    rw [hshift]
    ring
  have hordpos : 1 ≤ ymd2ord y mo d := by
    unfold ymd2ord daysBeforeYear daysBeforeMonthLeap
    omega
  have hdays : timegm y mo d hh mi ss / 86400 = (ymd2ord y mo d : ℤ) - 719163 := by
    rw [ht]; omega
  have hrem : (timegm y mo d hh mi ss % 86400).toNat = hh * 3600 + mi * 60 + ss := by
    rw [ht]; omega
  have htn : ((ymd2ord y mo d : ℤ) - 719163 + 719163).toNat = ymd2ord y mo d := by omega
  simp only [gmtime, hdays, hrem, htn, ord2ymd_ymd2ord y mo d hy hm1 hm2 hd1 hd2]
  simp only [Prod.mk.injEq, true_and]
  omega

/-! ## Decimal strings -/

/-- Decimal digits of `n`, least significant first, with explicit fuel;
with fuel at least `n` this is `Nat.digits 10 n`. -/
def digitsRevAux : ℕ → ℕ → List ℕ
  | 0, _ => []
  | fuel + 1, n => if n = 0 then [] else n % 10 :: digitsRevAux fuel (n / 10)

/-- The decimal string `str(n)`, as its list of digits most significant
first. -/
def pyStr (n : ℕ) : List ℕ :=
  if n = 0 then [0] else (digitsRevAux n n).reverse

/-- `int(str(n)[:8])`: the first eight characters of the decimal string,
read back as an integer. -/
def sliceFirst8 (n : ℕ) : ℕ :=
  Nat.ofDigits 10 ((pyStr n).take 8).reverse

theorem digitsRevAux_eq (fuel n : ℕ) (h : n ≤ fuel) :
    digitsRevAux fuel n = Nat.digits 10 n := by
  induction fuel generalizing n with
  | zero =>
    interval_cases n
    simp [digitsRevAux]
  | succ fuel ih =>
    by_cases hn : n = 0
    · simp [digitsRevAux, hn]
    · rw [digitsRevAux, if_neg hn, Nat.digits_def' (by norm_num) (Nat.pos_of_ne_zero hn),
        ih (n / 10) (by omega)]

theorem sliceFirst8_eq (n : ℕ) (h1 : 10 ^ 13 ≤ n) (h2 : n < 10 ^ 14) :
    sliceFirst8 n = n / 1000000 := by
  have hne : n ≠ 0 := by
    intro h
    subst h
    norm_num at h1
  have hlog : Nat.log 10 n = 13 := Nat.log_eq_of_pow_le_of_lt_pow h1 h2
  have hlen : (Nat.digits 10 n).length = 14 := by
    rw [Nat.digits_len 10 n (by norm_num) hne, hlog]
  have hps : pyStr n = (Nat.digits 10 n).reverse := by
    rw [pyStr, if_neg hne, digitsRevAux_eq n n le_rfl]
  rw [sliceFirst8, hps, List.take_reverse, hlen]
  norm_num
  rw [← Nat.self_div_pow_eq_ofDigits_drop 6 n (by norm_num)]
  norm_num

/-! ## Ingestion job (`entsoe_and_3rd_partyAPI_key.py`)

The ENTSO-E client and DynamoDB are external collaborators: the outcome of
each crossborder query enters `ingest_lambda_handler` as a parameter, and
the table is a list of records threaded through the write path. -/

/-- A pandas Series returned by `query_crossborder_flows`: time-indexed
values (index in seconds since 0001-01-01). -/
abbrev Series := List (ℕ × PyValue)

/-- `pandas` subtraction on scalars: NaN propagates, `inf - inf` is NaN. -/
def pyValueSub : PyValue → PyValue → PyValue
  | .nan, _ => .nan
  | _, .nan => .nan
  | .posInf, .posInf => .nan
  | .posInf, .negInf => .posInf
  | .posInf, .finite _ => .posInf
  | .negInf, .negInf => .nan
  | .negInf, .posInf => .negInf
  | .negInf, .finite _ => .negInf
  | .finite _, .posInf => .negInf
  | .finite _, .negInf => .posInf
  | .finite a, .finite b => .finite (a - b)

/-- Value of a Series at an index point. -/
def seriesGet (s : Series) (t : ℕ) : Option PyValue :=
  (s.find? (fun p => p.1 == t)).map (fun p => p.2)

/-- A sorted, duplicate-free index union (pandas aligns on the sorted union
of the two indexes). -/
def indexUnion (a b : List ℕ) : List ℕ :=
  List.insertionSort (fun x y => x ≤ y) (a ++ b).dedup

/-- `pandas` Series subtraction: aligned on the index union, missing →
NaN. -/
def seriesSub (x ylist : Series) : Series :=
  (indexUnion (x.map Prod.fst) (ylist.map Prod.fst)).map (fun t =>
    (t, match seriesGet x t, seriesGet ylist t with
        | some a, some b => pyValueSub a b
        | _, _ => PyValue.nan))

/-- `get_net_flow`: outward minus inward crossborder flow for one country;
an exception from either query is re-raised (the `except` blocks only log
and `raise`). -/
def get_net_flow (outward inward : Except PyExc Series) : Except PyExc Series :=
  match outward with
  | .error e => .error e
  | .ok a =>
    match inward with
    | .error e => .error e
    | .ok b => .ok (seriesSub a b)

/-- The per-country loop inside `get_all_interconnector_flows`: query each
configured country in order, re-raising the first failure. -/
def queryAllCountries :
    List (String × Except PyExc Series × Except PyExc Series) →
      Except PyExc (List (String × Series))
  | [] => .ok []
  | (c, o, i) :: rest =>
    match get_net_flow o i with
    | .error e => .error e
    | .ok s =>
      match queryAllCountries rest with
      | .error e => .error e
      | .ok rs => .ok ((c, s) :: rs)

/-- Sorted union of all column indexes. -/
def allIndices (cols : List (String × Series)) : List ℕ :=
  List.insertionSort (fun x y => x ≤ y)
    (cols.foldr (fun cs acc => cs.2.map Prod.fst ++ acc) []).dedup

/-- `pd.concat(dict, axis=1)`: one row per index point of the union, one
column per country, missing cells NaN. -/
def concatRows (cols : List (String × Series)) : List (ℕ × List (String × PyValue)) :=
  (allIndices cols).map (fun t =>
    (t, cols.map (fun cs => (cs.1, (seriesGet cs.2 t).getD PyValue.nan))))

/-- Forward-fill one row from the previous (filled) row. -/
def fillRow (prev row : List (String × PyValue)) : List (String × PyValue) :=
  List.zipWith (fun cv pv => (cv.1, match cv.2 with | PyValue.nan => pv.2 | w => w)) row prev

/-- `.ffill()` down the rows. -/
def ffillRows (prev : List (String × PyValue)) :
    List (ℕ × List (String × PyValue)) → List (ℕ × List (String × PyValue))
  | [] => []
  | (t, row) :: rest =>
    (t, fillRow prev row) :: ffillRows (fillRow prev row) rest

/-- `pd.concat(all_interconnector_dict, axis=1).ffill()`. -/
def concatFfill (cols : List (String × Series)) : List (ℕ × List (String × PyValue)) :=
  match concatRows cols with
  | [] => []
  | (t, row) :: rest =>
    ffillRows (row.map (fun cv => (cv.1, PyValue.nan))) ((t, row) :: rest)

/-- `get_all_interconnector_flows`: all per-country queries, then combine
into one wide, forward-filled table. -/
def get_all_interconnector_flows
    (fetches : List (String × Except PyExc Series × Except PyExc Series)) :
    Except PyExc (List (ℕ × List (String × PyValue))) :=
  match queryAllCountries fetches with
  | .error e => .error e
  | .ok cols => .ok (concatFfill cols)

/-- Step 1 of `convert_float_to_int`, per cell:
`df.replace([np.inf, -np.inf], np.nan)`. -/
def replace_inf_with_nan : PyValue → PyValue
  | .posInf => .nan
  | .negInf => .nan
  | v => v

/-- Step 2, per cell: `df.fillna(value=0)`. -/
def fillna_zero : PyValue → PyValue
  | .nan => .finite 0
  | v => v

/-- numpy float→int cast semantics: truncation toward zero. -/
def truncToInt (q : ℚ) : ℤ :=
  if q < 0 then -Int.floor (-q) else Int.floor q

/-- Step 3, per cell: `df.astype(int)`; the cast is undefined on NaN and
±inf (`none`). -/
def astype_int : PyValue → Option ℤ
  | .finite q => some (truncToInt q)
  | _ => none

/-- `convert_float_to_int` at the level of one cell. -/
def convert_float_to_int_cell (v : PyValue) : Option ℤ :=
  astype_int (fillna_zero (replace_inf_with_nan v))

/-- The total integer value `convert_float_to_int` produces for a cell. -/
def sanitize_cell (v : PyValue) : ℤ :=
  (convert_float_to_int_cell v).getD 0

/-- `convert_float_to_int` over the whole table. -/
def convert_float_to_int_df (rows : List (ℕ × List (String × PyValue))) :
    List (ℕ × List (String × ℤ)) :=
  rows.map (fun r => (r.1, r.2.map (fun cv => (cv.1, sanitize_cell cv.2))))

/-- `convert_df_datetime_to_strftime` followed by `set_index` /
`convert_df_to_json`: one record per row, `datetime` and `date` both derived
from the row's timestamp by `strftime`. -/
def rows_to_records (rows : List (ℕ × List (String × ℤ))) : List Record :=
  rows.map (fun r => { datetime := toKey r.1, date := toDate r.1, flows := r.2 })

/-- Key equality on records (DynamoDB composite key `(datetime, date)`). -/
def sameKeyB (x r : Record) : Bool :=
  x.datetime == r.datetime && x.date == r.date

/-- `check_if_exists`: `get_item` on the composite key, then
`"Item" in response`. -/
def check_if_exists (store : List Record) (r : Record) : Bool :=
  (store.find? (fun x => sameKeyB x r)).isSome

/-- DynamoDB `put_item`: replaces the item carrying the same key, or
appends a new one. -/
def dynamo_put_item (store : List Record) (r : Record) : List Record :=
  if store.any (fun x => sameKeyB x r) then
    store.map (fun x => if sameKeyB x r then r else x)
  else
    store ++ [r]

/-- `put_into_dynamo_db`: insert only when the key is absent. -/
def put_into_dynamo_db (store : List Record) (r : Record) : List Record :=
  if check_if_exists store r = false then dynamo_put_item store r else store

/-- `update_dynamo_db`: insert every entry in order. -/
def update_dynamo_db (store : List Record) (recs : List Record) : List Record :=
  recs.foldl put_into_dynamo_db store

/-- The four `possible_causes` strings of the 403 branch. -/
def auth_causes : List String :=
  ["API key not correctly set in SSM", "API key expired or invalid",
   "IP address blocked", "Request parameters invalid"]

/-- The `error_msg` dict built for a 403 `HTTPError`. -/
def auth_error_body (details : String) : Json :=
  Json.obj [("error", Json.str "API Authentication Failed"),
            ("details", Json.str details),
            ("possible_causes", Json.arr (auth_causes.map Json.str))]

/-- The ingestion `lambda_handler` (of `entsoe_and_3rd_partyAPI_key.py`).
`fetches` lists, per configured country, the outcomes of its outward and
inward crossborder queries.  Returns (response, store after invocation);
only `requests.exceptions.HTTPError` is caught, every other exception
leaves the handler as `.error`. -/
def ingest_lambda_handler (store : List Record)
    (fetches : List (String × Except PyExc Series × Except PyExc Series)) :
    Except PyExc Response × List Record :=
  match get_all_interconnector_flows fetches with
  | .ok rows =>
    (.ok { statusCode := 200, body := Json.str "Everything works!", headers := [] },
      update_dynamo_db store (rows_to_records (convert_float_to_int_df rows)))
  | .error (.httpError s msg) =>
    if s = 403 then
      (.ok { statusCode := 500, body := auth_error_body msg, headers := [] }, store)
    else
      (.ok { statusCode := 500, body := Json.obj [("error", Json.str msg)], headers := [] },
        store)
  | .error (.generic msg) => (.error (.generic msg), store)

/-! ## Query service (`second_Lambda_func.py`) -/

/-- `hour_rounder`: zero out minute/second, then add one hour when the
minute was ≥ 30. -/
def hour_rounder (t : ℕ) : ℕ :=
  t - t % 3600 + 3600 * (t % 3600 / 60 / 30)

/-- The `while` loop of `get_date_keys`, with explicit fuel (the source
loop always terminates since each step advances 15 minutes past a fixed
bound; fuel `nowLive + 1` always suffices, see `date_keys_loop_length`). -/
def date_keys_loop (nowLive : ℕ) : ℕ → ℕ → List ℕ
  | 0, _ => []
  | fuel + 1, start =>
    if start ≤ nowLive then
      toKey (start + 900) :: date_keys_loop nowLive fuel (start + 900)
    else []

/-- `get_date_keys`.  `nowRound` is the `datetime.today()` read rounded for
the end bound; `nowLive` the `datetime.today()` read used as the loop
bound (the source reads the clock twice). -/
def get_date_keys (nowRound nowLive : ℕ) : List ℕ :=
  date_keys_loop nowLive (nowLive + 1) (hour_rounder nowRound - 86400)

/-- The key list sent to `batch_get_item`: each `datetime` key paired with
`int(str(dt)[:8])`. -/
def query_keys (nowRound nowLive : ℕ) : List (ℕ × ℕ) :=
  (get_date_keys nowRound nowLive).map (fun dt => (dt, sliceFirst8 dt))

/-- DynamoDB `batch_get_item`: the items matching the requested keys (the
`Responses[table]` list, which is present even when no key matches). -/
def batch_get_item (store : List Record) (keys : List (ℕ × ℕ)) : List Record :=
  keys.filterMap (fun k =>
    store.find? (fun r => r.datetime == k.1 && r.date == k.2))

/-- `sorted(..., key=lambda x: x["datetime"])` (Python's sort is stable;
so is insertion sort). -/
def sortByDatetime (l : List Record) : List Record :=
  List.insertionSort (fun a b => a.datetime ≤ b.datetime) l

/-- `convert_to_epoch` on one record: `datetime.strptime(str(dt),
"%Y%m%d%H%M%S")` then `calendar.timegm(ts.timetuple())`. -/
def convert_record (r : Record) : Except String OutRecord :=
  match parse14 r.datetime with
  | some (y, mo, d, hh, mi, ss) =>
    .ok { datetime := timegm y mo d hh mi ss, date := r.date, flows := r.flows }
  | none => .error "time data does not match format"

/-- The record loop of `convert_to_epoch`, aborting at the first failure. -/
def convert_to_epoch_list : List Record → Except String (List OutRecord)
  | [] => .ok []
  | r :: rs =>
    match convert_record r with
    | .error e => .error e
    | .ok o =>
      match convert_to_epoch_list rs with
      | .error e => .error e
      | .ok os => .ok (o :: os)

/-- `convert_to_epoch`: its `except` block wraps any failure in
`"Error converting to epoch: ..."`. -/
def convert_to_epoch (l : List Record) : Except String (List OutRecord) :=
  match convert_to_epoch_list l with
  | .error e => .error ("Error converting to epoch: " ++ e)
  | .ok os => .ok os

/-- `get_todays_data_from_db`, given the outcome of the `batch_get_item`
call: `.error` when the boto3 call raises, `.ok none` when the reply lacks
the `Responses`/`interconnector-data` structure, `.ok (some items)` when it
carries an item list.  Every failure is wrapped in
`"Error fetching data from DynamoDB: ..."` by the function's `except`
block. -/
def get_todays_data_from_db (fetch : Except String (Option (List Record))) :
    Except String (List OutRecord) :=
  match fetch with
  | .error e => .error ("Error fetching data from DynamoDB: " ++ e)
  | .ok none =>
    .error ("Error fetching data from DynamoDB: No data found in DynamoDB response")
  | .ok (some items) =>
    match convert_to_epoch (sortByDatetime items) with
    | .error e => .error ("Error fetching data from DynamoDB: " ++ e)
    | .ok out => .ok out

/-- The CORS headers set on every query-service response. -/
def cors_headers : List (String × String) :=
  [("Content-Type", "application/json"), ("Access-Control-Allow-Origin", "*")]

/-- Wire shape of one record in the response body. -/
def outRecordToJson (r : OutRecord) : Json :=
  Json.obj ([("datetime", Json.num r.datetime), ("date", Json.num (r.date : ℤ))] ++
    r.flows.map (fun cv => (cv.1, Json.num cv.2)))

/-- The success body: the whole boto3 reply structure is serialized. -/
def queryBodyJson (recs : List OutRecord) : Json :=
  Json.obj [("Responses",
    Json.obj [("interconnector-data", Json.arr (recs.map outRecordToJson))])]

/-- The query-service `lambda_handler` (of `second_Lambda_func.py`), given
the outcome of the store call; it catches every exception. -/
def query_lambda_handler (fetch : Except String (Option (List Record))) : Response :=
  match get_todays_data_from_db fetch with
  | .ok recs =>
    { statusCode := 200, headers := cors_headers, body := queryBodyJson recs }
  | .error e =>
    { statusCode := 500, headers := cors_headers,
      body := Json.obj [("message", Json.str ("Error processing request: " ++ e))] }

/-- One query invocation against a store state, with the `batch_get_item`
call succeeding and returning the standard reply shape. -/
def query_invoke (store : List Record) (nowRound nowLive : ℕ) : Response :=
  query_lambda_handler (.ok (some (batch_get_item store (query_keys nowRound nowLive))))

/-! ## Helper lemmas for the claims -/

theorem sameKeyB_self (r : Record) : sameKeyB r r = true := by
  simp [sameKeyB]

theorem check_if_exists_dynamo_put (store : List Record) (r : Record)
    (h : check_if_exists store r = false) :
    check_if_exists (dynamo_put_item store r) r = true := by
  have hany : store.any (fun x => sameKeyB x r) = false := by
    rw [Bool.eq_false_iff]
    intro hc
    rw [List.any_eq_true] at hc
    obtain ⟨x, hx, hsk⟩ := hc
    rw [check_if_exists, Bool.eq_false_iff] at h
    exact h (List.find?_isSome.mpr ⟨x, hx, hsk⟩)
  rw [dynamo_put_item, if_neg (by simp [hany]), check_if_exists]
  exact List.find?_isSome.mpr ⟨r, by simp, sameKeyB_self r⟩

theorem queryAllCountries_error (c : String) (o i : Except PyExc Series)
    (fetches : List (String × Except PyExc Series × Except PyExc Series))
    (hmem : (c, o, i) ∈ fetches)
    (hfail : (∃ e, o = Except.error e) ∨ (∃ e, i = Except.error e)) :
    ∃ e, queryAllCountries fetches = Except.error e := by
  induction fetches with
  | nil => exact absurd hmem (List.not_mem_nil _)
  | cons hd tl ih =>
    obtain ⟨c', o', i'⟩ := hd
    rcases List.mem_cons.mp hmem with heq | htl
    · obtain ⟨rfl, rfl, rfl⟩ : c = c' ∧ o = o' ∧ i = i' :=
        ⟨congrArg Prod.fst heq, congrArg (fun p => p.2.1) heq,
          congrArg (fun p => p.2.2) heq⟩
      rw [queryAllCountries]
      rcases hfail with ⟨e, rfl⟩ | ⟨e, he⟩
      · exact ⟨e, rfl⟩
      · cases o with
        | error e' => exact ⟨e', rfl⟩
        | ok a => subst he; exact ⟨e, rfl⟩
    · obtain ⟨e, he⟩ := ih htl
      rw [queryAllCountries]
      cases hnf : get_net_flow o' i' with
      | error e' => exact ⟨e', rfl⟩
      | ok s => rw [he]; exact ⟨e, rfl⟩

theorem sortByDatetime_length (l : List Record) :
    (sortByDatetime l).length = l.length := by
  rw [sortByDatetime]
  exact (List.perm_insertionSort (fun a b => a.datetime ≤ b.datetime) l).length_eq

theorem convert_to_epoch_list_length :
    ∀ (l : List Record) (os : List OutRecord),
      convert_to_epoch_list l = Except.ok os → os.length = l.length := by
  intro l
  induction l with
  | nil => intro os h; cases h; rfl
  | cons r rs ih =>
    intro os h
    rw [convert_to_epoch_list] at h
    cases hcr : convert_record r with
    | error e => rw [hcr] at h; cases h
    | ok o =>
      rw [hcr] at h
      cases hrec : convert_to_epoch_list rs with
      | error e => rw [hrec] at h; cases h
      | ok os' =>
        rw [hrec] at h
        cases h
        simp [ih os' hrec]

theorem convert_to_epoch_length (l : List Record) (os : List OutRecord)
    (h : convert_to_epoch l = Except.ok os) : os.length = l.length := by
  rw [convert_to_epoch] at h
  cases hl : convert_to_epoch_list l with
  | error e => rw [hl] at h; cases h
  | ok os' => rw [hl] at h; cases h; exact convert_to_epoch_list_length l os hl

theorem date_keys_loop_length (n₂ : ℕ) :
    ∀ (fuel start : ℕ), start ≤ n₂ → n₂ - start < 900 * fuel →
      (date_keys_loop n₂ fuel start).length = (n₂ - start) / 900 + 1 := by
  intro fuel
  induction fuel with
  | zero => intro start h1 h2; omega
  | succ fuel ih =>
    intro start h1 h2
    rw [date_keys_loop, if_pos h1]
    by_cases h3 : start + 900 ≤ n₂
    · rw [List.length_cons, ih (start + 900) h3 (by omega)]
      omega
    · have hnil : date_keys_loop n₂ fuel (start + 900) = [] := by
        cases fuel with
        | zero => rfl
        | succ f => rw [date_keys_loop, if_neg (by omega)]
      rw [hnil]
      simp only [List.length_cons, List.length_nil]
      omega

theorem get_date_keys_length_le (n : ℕ) : (get_date_keys n n).length ≤ 98 := by
  rw [get_date_keys]
  have h1 : hour_rounder n - 86400 ≤ n := by
    unfold hour_rounder
    omega
  have h2 : n - (hour_rounder n - 86400) ≤ 88199 := by
    unfold hour_rounder
    omega
  rw [date_keys_loop_length n (n + 1) (hour_rounder n - 86400) h1 (by omega)]
  omega

theorem date_keys_loop_mem (n₂ : ℕ) :
    ∀ (fuel start k : ℕ), start % 900 = 0 → k ∈ date_keys_loop n₂ fuel start →
      ∃ t, t % 900 = 0 ∧ k = toKey t := by
  intro fuel
  induction fuel with
  | zero =>
    intro start k _ h
    rw [date_keys_loop] at h
    exact absurd h (List.not_mem_nil _)
  | succ fuel ih =>
    intro start k hs hk
    rw [date_keys_loop] at hk
    by_cases h1 : start ≤ n₂
    · rw [if_pos h1] at hk
      rcases List.mem_cons.mp hk with heq | htl
      · exact ⟨start + 900, by omega, heq⟩
      · exact ih (start + 900) k (by omega) htl
    · rw [if_neg h1] at hk
      exact absurd hk (List.not_mem_nil _)

theorem mkDatetime_low_fields (y mo d hh mi ss : ℕ) (hmi : mi ≤ 59) (hss : ss ≤ 59) :
    mkDatetime y mo d hh mi ss % 100 = ss ∧ mkDatetime y mo d hh mi ss / 100 % 100 = mi := by
  unfold mkDatetime
  omega

theorem toKey_aligned (t : ℕ) (ht : t % 900 = 0) :
    toKey t % 100 = 0 ∧ (toKey t / 100 % 100 = 0 ∨ toKey t / 100 % 100 = 15 ∨
      toKey t / 100 % 100 = 30 ∨ toKey t / 100 % 100 = 45) := by
  have hmi : t % 3600 / 60 = 0 ∨ t % 3600 / 60 = 15 ∨ t % 3600 / 60 = 30 ∨
      t % 3600 / 60 = 45 := by omega
  have hss : t % 60 = 0 := by omega
  have hfields := mkDatetime_low_fields (ord2ymd (t / 86400 + 1)).1
    (ord2ymd (t / 86400 + 1)).2.1 (ord2ymd (t / 86400 + 1)).2.2
    (t % 86400 / 3600) (t % 3600 / 60) (t % 60) (by omega) (by omega)
  simp only [toKey]
  rw [hfields.1, hfields.2]
  exact ⟨hss, hmi⟩

theorem toDate_div (t : ℕ) : toDate t = toKey t / 1000000 := by
  simp only [toKey, toDate, mkDatetime, mkDate]
  omega

theorem convert_float_to_int_cell_total (v : PyValue) :
    convert_float_to_int_cell v = some (sanitize_cell v) := by
  cases v <;> rfl

/-! ## Concrete instances used by witnesses and counterexamples -/

/-- 2024-01-02 00:00:00 in seconds since 0001-01-01: a clock reading at
minute 0. -/
def c5Now : ℕ := 86400 * (ymd2ord 2024 1 2 - 1)

/-- A store holding one record at every key generated for `c5Now` (97
records; the ingestion window reaches 2 hours into the future, so a fully
populated window is reachable). -/
def c5Store : List Record :=
  (get_date_keys c5Now c5Now).map
    (fun dt => { datetime := dt, date := sliceFirst8 dt, flows := [("France", 7)] })

/-- A run whose France outward query failed with HTTP 403. -/
def fetch403 : List (String × Except PyExc Series × Except PyExc Series) :=
  [("France", Except.error (PyExc.httpError 403 "403 Client Error"), Except.ok [])]

/-- A run whose France outward query failed with HTTP 503. -/
def fetch503 : List (String × Except PyExc Series × Except PyExc Series) :=
  [("France", Except.error (PyExc.httpError 503 "503 Server Error"), Except.ok [])]

/-- A run whose France outward query raised a non-HTTP exception (e.g. a
`requests.exceptions.ConnectionError`). -/
def fetchGeneric : List (String × Except PyExc Series × Except PyExc Series) :=
  [("France", Except.error (PyExc.generic "Connection aborted"), Except.ok [])]

/-- A sample record for the write-path witnesses. -/
def sampleRecord : Record :=
  { datetime := 20240102001500, date := 20240102, flows := [("France", 7)] }

/-! ## The claims -/

/-- C1, counterexample: at this concrete invocation the ingestion handler's
body raises a non-HTTP exception (a connection error from the remote API
client) and the handler produces no response at all: the exception escapes
the handler uncaught instead of becoming a statusCode-500 response, so the
claim "no exception escapes the handler boundary uncaught" is false for the
ingestion entrypoint. -/
theorem c1_counterexample :
    (ingest_lambda_handler [] fetchGeneric).1 =
      Except.error (PyExc.generic "Connection aborted") := rfl

/-- C1, amended: the query-service handler converts every exception raised
inside it into a statusCode-500 JSON error response; the ingestion handler
does so only for `requests.exceptions.HTTPError` — any other exception
(remote connection errors, store errors, conversion errors) escapes it
uncaught. -/
theorem c1_amended_exception_policy :
    (∀ e, query_lambda_handler (Except.error e) =
      { statusCode := 500, headers := cors_headers,
        body := Json.obj [("message", Json.str ("Error processing request: " ++
          ("Error fetching data from DynamoDB: " ++ e)))] }) ∧
    (∀ store fetches s msg,
      get_all_interconnector_flows fetches = Except.error (PyExc.httpError s msg) →
      (ingest_lambda_handler store fetches).1 =
        Except.ok
          { statusCode := 500,
            body := if s = 403 then auth_error_body msg
                    else Json.obj [("error", Json.str msg)],
            headers := [] }) ∧
    (∀ store fetches msg,
      get_all_interconnector_flows fetches = Except.error (PyExc.generic msg) →
      ingest_lambda_handler store fetches = (Except.error (PyExc.generic msg), store)) := by
  refine ⟨fun e => rfl, fun store fetches s msg h => ?_, fun store fetches msg h => ?_⟩
  · simp only [ingest_lambda_handler, h]
    split_ifs <;> rfl
  · simp only [ingest_lambda_handler, h]

/-- Witness for the amended C1, at an error outcome, a 503 run and a
connection-error run. -/
theorem c1_amended_exception_policy_witness :
    (query_lambda_handler (Except.error "boom") =
      { statusCode := 500, headers := cors_headers,
        body := Json.obj [("message", Json.str ("Error processing request: " ++
          ("Error fetching data from DynamoDB: " ++ "boom")))] }) ∧
    ((ingest_lambda_handler [] fetch503).1 =
      Except.ok
        { statusCode := 500,
          body := if 503 = 403 then auth_error_body "503 Server Error"
                  else Json.obj [("error", Json.str "503 Server Error")],
          headers := [] }) ∧
    (ingest_lambda_handler [] fetchGeneric =
      (Except.error (PyExc.generic "Connection aborted"), [])) :=
  ⟨c1_amended_exception_policy.1 "boom",
   c1_amended_exception_policy.2.1 [] fetch503 503 "503 Server Error" rfl,
   c1_amended_exception_policy.2.2 [] fetchGeneric "Connection aborted" rfl⟩

/-- C2, the code's behavior at the failing input: with a store containing no
record for any generated key, the query handler returns statusCode 200 with
an empty record list, not 500.  DynamoDB's reply to `batch_get_item` still
carries the `Responses`/`interconnector-data` structure (merely with an
empty item list), so the `"No data found in DynamoDB response"` guard,
which only tests for the presence of those keys, does not fire. -/
theorem c2_total_absence_returns_200 :
    query_invoke [] c5Now c5Now =
      { statusCode := 200, headers := cors_headers, body := queryBodyJson [] } := rfl

/-- C3: inserting a record whose `(datetime, date)` key already exists in
the store is a no-op (the stored value is never overwritten), and inserting
the same record twice leaves the same state as inserting it once. -/
theorem c3_first_write_wins (store : List Record) (r : Record) :
    (check_if_exists store r = true → put_into_dynamo_db store r = store) ∧
    put_into_dynamo_db (put_into_dynamo_db store r) r = put_into_dynamo_db store r := by
  have hskip : check_if_exists store r = true → put_into_dynamo_db store r = store := by
    intro h
    rw [put_into_dynamo_db, h]
    simp
  refine ⟨hskip, ?_⟩
  by_cases h : check_if_exists store r = true
  · rw [hskip h]
    exact hskip h
  · have hf : check_if_exists store r = false := by
      cases hc : check_if_exists store r
      · rfl
      · exact absurd hc h
    have h1 : put_into_dynamo_db store r = dynamo_put_item store r := by
      rw [put_into_dynamo_db, hf]
      simp
    have h2 : check_if_exists (dynamo_put_item store r) r = true :=
      check_if_exists_dynamo_put store r hf
    rw [h1, put_into_dynamo_db, h2]
    simp

/-- Witness for C3 at a concrete store and record. -/
theorem c3_first_write_wins_witness :
    put_into_dynamo_db [sampleRecord] sampleRecord = [sampleRecord] ∧
    put_into_dynamo_db (put_into_dynamo_db [] sampleRecord) sampleRecord =
      put_into_dynamo_db [] sampleRecord :=
  ⟨(c3_first_write_wins [sampleRecord] sampleRecord).1 (by decide),
   (c3_first_write_wins [] sampleRecord).2⟩

/-- C4: the sanitization step maps NaN and both infinities to integer 0 and
truncates every finite value toward zero (floor for nonnegative values,
ceiling for negative ones); every sanitized output is hence a finite
integer. -/
theorem c4_sanitization :
    convert_float_to_int_cell PyValue.nan = some 0 ∧
    convert_float_to_int_cell PyValue.posInf = some 0 ∧
    convert_float_to_int_cell PyValue.negInf = some 0 ∧
    ∀ q : ℚ, convert_float_to_int_cell (PyValue.finite q) =
      some (if 0 ≤ q then ⌊q⌋ else ⌈q⌉) := by
  refine ⟨?_, ?_, ?_, fun q => ?_⟩
  · simp [convert_float_to_int_cell, astype_int, fillna_zero, replace_inf_with_nan, truncToInt]
  · simp [convert_float_to_int_cell, astype_int, fillna_zero, replace_inf_with_nan, truncToInt]
  · simp [convert_float_to_int_cell, astype_int, fillna_zero, replace_inf_with_nan, truncToInt]
  · show some (truncToInt q) = some (if 0 ≤ q then ⌊q⌋ else ⌈q⌉)
    rw [truncToInt]
    rcases lt_or_le q 0 with hq | hq
    · rw [if_pos hq, if_neg (not_le.mpr hq), Int.floor_neg, neg_neg]
    · rw [if_neg (not_lt.mpr hq), if_pos hq]

/-- C5, counterexample: at a minute-0 clock reading, with every generated
key present in the store, one query invocation returns 97 records — more
than the claimed bound of 96 (the loop emits 97 keys here: with minute
< 30 the rounded end bound is at or before "now", so the 24-hour span plus
the final overshooting step yields 97 or 98 keys). -/
theorem c5_counterexample :
    Except.map List.length
      (get_todays_data_from_db
        (Except.ok (some (batch_get_item c5Store (query_keys c5Now c5Now))))) =
      Except.ok 97 := rfl

/-- C5, amended: the mechanism is as described (round down to the hour, up
when minute ≥ 30; start 24h earlier; 15-minute steps applied before
emission while the pre-step value does not exceed the live time), but the
invocation returns at most 98 records, not 96 — 97 or 98 when the current
minute is < 30, 95 or 96 otherwise — stated here with the live clock read
equal to the rounding read. -/
theorem c5_amended_at_most_98 (store : List Record) (n : ℕ) (l : List OutRecord)
    (h : get_todays_data_from_db
        (Except.ok (some (batch_get_item store (query_keys n n)))) = Except.ok l) :
    l.length ≤ 98 := by
  rw [get_todays_data_from_db] at h
  cases hc : convert_to_epoch (sortByDatetime (batch_get_item store (query_keys n n))) with
  | error e => rw [hc] at h; cases h
  | ok os =>
    rw [hc] at h
    cases h
    have e1 := convert_to_epoch_length _ _ hc
    have e2 := sortByDatetime_length (batch_get_item store (query_keys n n))
    have e3 : (batch_get_item store (query_keys n n)).length ≤ (query_keys n n).length :=
      List.length_filterMap_le _ _
    have e4 : (query_keys n n).length = (get_date_keys n n).length := by
      rw [query_keys, List.length_map]
    have e5 := get_date_keys_length_le n
    omega

/-- Witness for the amended C5 at the concrete clock reading `c5Now` and an
empty store. -/
theorem c5_amended_at_most_98_witness :
    get_todays_data_from_db
        (Except.ok (some (batch_get_item [] (query_keys c5Now c5Now)))) =
      Except.ok ([] : List OutRecord) ∧ ([] : List OutRecord).length ≤ 98 :=
  ⟨rfl, c5_amended_at_most_98 [] c5Now [] rfl⟩

/-- C6: on the write path, the `date` attribute of every stored record
equals its `datetime` attribute divided by 10^6 (both are derived from the
same timestamp); on the read path, `int(str(dt)[:8])` equals
`dt / 10^6` for every 14-digit datetime key. -/
theorem c6_date_key_derivation :
    (∀ t : ℕ, toDate t = toKey t / 1000000) ∧
    (∀ dt : ℕ, 10 ^ 13 ≤ dt → dt < 10 ^ 14 → sliceFirst8 dt = dt / 1000000) :=
  ⟨toDate_div, fun dt h1 h2 => sliceFirst8_eq dt h1 h2⟩

/-- Witness for C6 at the concrete timestamp `c5Now` and the concrete key
20240102001500. -/
theorem c6_date_key_derivation_witness :
    toDate c5Now = toKey c5Now / 1000000 ∧
    sliceFirst8 20240102001500 = 20240102001500 / 1000000 :=
  ⟨c6_date_key_derivation.1 c5Now,
   c6_date_key_derivation.2 20240102001500 (by norm_num) (by norm_num)⟩

/-- C7: for every valid `YYYYMMDDHHMMSS` integer (every integer `strptime`
accepts), converting to Unix epoch seconds and back to UTC calendar
components recovers the original year, month, day, hour, minute and
second. -/
theorem c7_epoch_roundtrip (n y mo d hh mi ss : ℕ)
    (h : parse14 n = some (y, mo, d, hh, mi, ss)) :
    gmtime (timegm y mo d hh mi ss) = (y, mo, d, hh, mi, ss) := by
  simp only [parse14] at h
  split_ifs at h with hc
  · simp only [Option.some.injEq, Prod.mk.injEq] at h
    obtain ⟨rfl, rfl, rfl, rfl, rfl, rfl⟩ := h
    obtain ⟨h1, h2, h3, h4, h5, h6, h7, h8, h9⟩ := hc
    exact gmtime_timegm _ _ _ _ _ _ (by omega) h3 h4 h5 h6 h7 h8 h9

/-- Witness for C7 at the concrete key 20240102001500. -/
theorem c7_epoch_roundtrip_witness :
    gmtime (timegm 2024 1 2 0 15 0) = (2024, 1, 2, 0, 15, 0) :=
  c7_epoch_roundtrip 20240102001500 2024 1 2 0 15 0 (by decide)

/-- C8: when the remote API fails with an HTTP error, the ingestion handler
returns statusCode 500; for status 403 the body names "API Authentication
Failed" with the four standard causes, for any other status the body
carries only the error's message. -/
theorem c8_http_error_responses (store : List Record)
    (fetches : List (String × Except PyExc Series × Except PyExc Series))
    (s : ℕ) (msg : String)
    (h : get_all_interconnector_flows fetches = Except.error (PyExc.httpError s msg)) :
    ingest_lambda_handler store fetches =
      (Except.ok
        { statusCode := 500,
          body := if s = 403 then auth_error_body msg
                  else Json.obj [("error", Json.str msg)],
          headers := [] }, store) := by
  simp only [ingest_lambda_handler, h]
  split_ifs <;> rfl

/-- Witness for C8 at a concrete 403 run. -/
theorem c8_http_error_responses_witness :
    ingest_lambda_handler [] fetch403 =
      (Except.ok
        { statusCode := 500,
          body := if 403 = 403 then auth_error_body "403 Client Error"
                  else Json.obj [("error", Json.str "403 Client Error")],
          headers := [] }, []) :=
  c8_http_error_responses [] fetch403 403 "403 Client Error" rfl

/-- C9: when any country's outward or inward remote query fails, the whole
ingestion run aborts before any record is written — the store after the
invocation equals the store before it. -/
theorem c9_no_partial_commit (store : List Record)
    (fetches : List (String × Except PyExc Series × Except PyExc Series))
    (h : ∃ c o i, (c, o, i) ∈ fetches ∧
      ((∃ e, o = Except.error e) ∨ (∃ e, i = Except.error e))) :
    (ingest_lambda_handler store fetches).2 = store := by
  obtain ⟨c, o, i, hmem, hfail⟩ := h
  obtain ⟨e, he⟩ := queryAllCountries_error c o i fetches hmem hfail
  have hga : get_all_interconnector_flows fetches = Except.error e := by
    rw [get_all_interconnector_flows, he]
  cases e with
  | httpError s msg =>
    simp only [ingest_lambda_handler, hga]
    split_ifs <;> rfl
  | generic msg =>
    simp only [ingest_lambda_handler, hga]

/-- Witness for C9 at a concrete failing run. -/
theorem c9_no_partial_commit_witness :
    (ingest_lambda_handler [] fetch503).2 = [] :=
  c9_no_partial_commit [] fetch503
    ⟨"France", Except.error (PyExc.httpError 503 "503 Server Error"), Except.ok [],
      List.mem_singleton_self _, Or.inl ⟨_, rfl⟩⟩

/-- C10: every key the query service generates is aligned to a 15-minute
boundary — its seconds field is 00 and its minutes field is one of 00, 15,
30, 45 — for any pair of clock readings. -/
theorem c10_keys_aligned (nowRound nowLive k : ℕ)
    (h : k ∈ get_date_keys nowRound nowLive) :
    k % 100 = 0 ∧ (k / 100 % 100 = 0 ∨ k / 100 % 100 = 15 ∨ k / 100 % 100 = 30 ∨
      k / 100 % 100 = 45) := by
  rw [get_date_keys] at h
  obtain ⟨t, ht, rfl⟩ := date_keys_loop_mem nowLive (nowLive + 1)
    (hour_rounder nowRound - 86400) k (by unfold hour_rounder; omega) h
  exact toKey_aligned t ht

/-- Witness for C10 at the key 20240102001500 generated for `c5Now`. -/
theorem c10_keys_aligned_witness :
    20240102001500 % 100 = 0 ∧ (20240102001500 / 100 % 100 = 0 ∨
      20240102001500 / 100 % 100 = 15 ∨ 20240102001500 / 100 % 100 = 30 ∨
      20240102001500 / 100 % 100 = 45) :=
  c10_keys_aligned c5Now c5Now 20240102001500 (by decide)
